import Mathlib

/-!
Shallow embedding of the AI Laundry Sorter front end (`app.py`, `local_app.py`).

The per-image pipeline of `app.py` (status gating, the not-clothing gate, the
fabric-field alias extraction, the leather / fabric-and-color decision, the
color-advisory selection) is embedded as pure functions over explicit response
data; `local_app.py`'s variant of the result block and both files' sidebar
health check are embedded separately.  Floating-point confidences only flow
through the logic unchanged (they are never compared or combined), so they are
modelled as rationals; JSON objects are modelled as association lists or as
structures whose `Option` fields record key presence.
-/

namespace LaundrySorter

/-- ASCII lowercasing of a single character: the effect of Python's
`str.lower` on the basic-latin letters that make up every fabric and color
label handled by the app. Non-letters are unchanged. -/
def lowerChar : Char → Char
  | 'A' => 'a'
  | 'B' => 'b'
  | 'C' => 'c'
  | 'D' => 'd'
  | 'E' => 'e'
  | 'F' => 'f'
  | 'G' => 'g'
  | 'H' => 'h'
  | 'I' => 'i'
  | 'J' => 'j'
  | 'K' => 'k'
  | 'L' => 'l'
  | 'M' => 'm'
  | 'N' => 'n'
  | 'O' => 'o'
  | 'P' => 'p'
  | 'Q' => 'q'
  | 'R' => 'r'
  | 'S' => 's'
  | 'T' => 't'
  | 'U' => 'u'
  | 'V' => 'v'
  | 'W' => 'w'
  | 'X' => 'x'
  | 'Y' => 'y'
  | 'Z' => 'z'
  | c => c

/-- Python `s.lower()` (ASCII fragment), mapped over the characters of `s`. -/
def pyLower (s : String) : String := String.mk (s.data.map lowerChar)

/-- One entry of the static `care_guide` dictionary of `app.py`
(title, ordered instruction list, emoji). -/
structure CareRecord where
  title : String
  instructions : List String
  emoji : String
deriving Repr, DecidableEq

/-- `care_guide['cotton']` from `app.py`. -/
def cotton_record : CareRecord :=
  { title := "Cotton — Safe & Easy",
    instructions := ["Machine wash cold or warm", "Normal or gentle cycle",
      "Tumble dry low or air dry", "Can handle regular detergent"],
    emoji := "👕" }

/-- `care_guide['denim']` from `app.py`. -/
def denim_record : CareRecord :=
  { title := "Denim — Preserve the Color",
    instructions := ["Machine wash cold, inside out", "Gentle cycle only",
      "Air dry preferred (prevents fading)", "Wash infrequently"],
    emoji := "👖" }

/-- `care_guide['leather']` from `app.py`. -/
def leather_record : CareRecord :=
  { title := "Leather — DO NOT WASH!",
    instructions := ["Never machine wash", "Wipe with damp cloth only",
      "Professional leather cleaning only", "Condition regularly"],
    emoji := "🧥" }

/-- `care_guide['linen']` from `app.py`. -/
def linen_record : CareRecord :=
  { title := "Linen — Handle with Care",
    instructions := ["Machine or hand wash cold", "Gentle cycle",
      "Air dry flat", "Iron while still damp"],
    emoji := "👔" }

/-- `care_guide['polyester']` from `app.py`. -/
def polyester_record : CareRecord :=
  { title := "Polyester — Very Durable",
    instructions := ["Machine wash warm", "Permanent press cycle",
      "Tumble dry low", "Resists wrinkles & shrinking"],
    emoji := "🎽" }

/-- `care_guide['silk']` from `app.py`. -/
def silk_record : CareRecord :=
  { title := "Silk — Delicate Luxury",
    instructions := ["Hand wash cold or dry clean", "Use silk/gentle detergent",
      "Line dry in shade", "Never wring or twist"],
    emoji := "✨" }

/-- The `care_guide` dictionary of `app.py` as a partial map from fabric key
to care record (`none` models a key that is not in the dictionary). -/
def care_guide : String → Option CareRecord
  | "cotton" => some cotton_record
  | "denim" => some denim_record
  | "leather" => some leather_record
  | "linen" => some linen_record
  | "polyester" => some polyester_record
  | "silk" => some silk_record
  | _ => none

/-- The six fabric keys of `care_guide`, in source order. -/
def supported_fabrics : List String :=
  ["cotton", "denim", "leather", "linen", "polyester", "silk"]

/-- The `BRIGHT_WASHING` constant, byte for byte as in `app.py` and
`local_app.py` (including the two trailing spaces on the second bullet). -/
def BRIGHT_WASHING : String :=
  "\n✨ **Bright Clothes Care:**\n- Wash with other bright/pastel colors\n- Avoid mixing with dark fabrics  \n- Use cold or warm water (30-40°C)\n- Turn inside out to preserve colors\n"

/-- The `DARK_WASHING` constant, byte for byte as in `app.py` and
`local_app.py`. -/
def DARK_WASHING : String :=
  "\n🌑 **Dark Clothes Care:**\n- Wash separately or with other dark clothes\n- Use cold water to prevent fading\n- Turn inside out before washing\n- Avoid over-drying\n"

/-- The `LEATHER_WASHING` constant of `local_app.py`. -/
def LEATHER_WASHING : String :=
  "\n🧥 **Leather Care:**\n- Professional cleaning recommended\n- Spot clean with damp cloth if needed\n- Avoid machine washing\n- Store in cool, dry place\n"

/-- Parsed body of the clothing classifier's JSON response as the app reads
it: `is_clothing` via `cloth_data.get('is_clothing', True)` (`none` = key
absent), `cloth_type` and `confidence` via direct indexing. -/
structure ClothData where
  is_clothing : Option Bool
  cloth_type : String
  confidence : Rat
deriving Repr, DecidableEq

/-- Parsed body of the color classifier's JSON response as `app.py` reads it:
both fields are read with `.get` and a default, so `none` models an absent
key. -/
structure ColorData where
  color : Option String
  confidence : Option Rat
deriving Repr, DecidableEq

/-- The fabric classifier's JSON response, as an association list in key
insertion order.  Only string-valued fields participate in the control flow
the claims are about (the alias extraction), so values are strings. -/
abbrev FabricData := List (String × String)

/-- Python `key in d` / `d[key]` on a JSON object: the value at the first
matching key, if present. -/
def dictLookup (k : String) (d : FabricData) : Option String :=
  (d.find? (fun kv => kv.1 == k)).map (fun kv => kv.2)

/-- The field-name aliases accepted by the fallback loop of `app.py`
(lines 294-298): `['predicted_class', 'fabric_type', 'class', 'prediction']`. -/
def fabricAliases : List String := ["predicted_class", "fabric_type", "class", "prediction"]

/-- The fabric-type extraction of `app.py` (lines 279-298): try
`predicted_class`, then `fabric_type`, then `class`, and otherwise scan the
response's items for the first key in `fabricAliases` (in practice only
`prediction` can fire there).  `none` models `fabric_type` remaining `None`. -/
def extract_fabric_type (d : FabricData) : Option String :=
  match dictLookup "predicted_class" d with
  | some v => some v
  | none =>
    match dictLookup "fabric_type" d with
    | some v => some v
    | none =>
      match dictLookup "class" d with
      | some v => some v
      | none => (d.find? (fun kv => fabricAliases.contains kv.1)).map (fun kv => kv.2)

/-- What `app.py` renders for one image, by case.  Error constructors carry
the shown status code or message; render constructors carry exactly the data
the corresponding branch displays. -/
inductive RenderPlan where
  | clothApiError (status : Nat)
  | notClothing (confidence : Rat)
  | fabricApiError (status : Nat)
  | colorApiError (status : Nat)
  | missingFabric (clothType : String) (clothConfidence : Rat)
  | leatherOnly (clothType : String) (clothConfidence : Rat) (fabricShown : String)
      (care : CareRecord)
  | fabricAndColor (clothType : String) (clothConfidence : Rat) (fabricShown : String)
      (care : CareRecord) (colorShown : String) (colorConfidence : Rat) (advisory : String)
  | processingError (msg : String)
deriving Repr, DecidableEq

/-- The care record a plan displays, if any. -/
def RenderPlan.careRecordOf : RenderPlan → Option CareRecord
  | .leatherOnly _ _ _ g => some g
  | .fabricAndColor _ _ _ g _ _ _ => some g
  | _ => none

/-- The color-advisory text a plan displays, if any. -/
def RenderPlan.advisoryOf : RenderPlan → Option String
  | .fabricAndColor _ _ _ _ _ _ tip => some tip
  | _ => none

/-- The color class a plan displays, if any. -/
def RenderPlan.colorShownOf : RenderPlan → Option String
  | .fabricAndColor _ _ _ _ c _ _ => some c
  | _ => none

/-- The fabric string a plan displays, if any. -/
def RenderPlan.fabricShownOf : RenderPlan → Option String
  | .leatherOnly _ _ f _ => some f
  | .fabricAndColor _ _ f _ _ _ _ => some f
  | _ => none

/-- The leather test of `app.py` line 306: `fabric_type.lower() == 'leather'`. -/
def app_is_leather (ft : String) : Bool := pyLower ft == "leather"

/-- Lines 305-343 of `app.py`: given the already-extracted (truthy) fabric
string and the parsed color response, pick the leather-only branch or the
fabric-and-color branch, with `care_guide.get(fabric_type.lower(), ...)`
lookups, `color_data.get('color', 'bright')`, `color_data.get('confidence', 0)`
and the `color_type.lower() == "bright"` advisory test. -/
def app_resolve (clothType : String) (clothConf : Rat) (ft : String)
    (color : ColorData) : RenderPlan :=
  if app_is_leather ft then
    RenderPlan.leatherOnly clothType clothConf ft
      ((care_guide (pyLower ft)).getD leather_record)
  else
    let fabricGuide := (care_guide (pyLower ft)).getD cotton_record
    let colorType := color.color.getD "bright"
    let colorConf := color.confidence.getD 0
    let washingTip := if pyLower colorType == "bright" then BRIGHT_WASHING else DARK_WASHING
    RenderPlan.fabricAndColor clothType clothConf ft fabricGuide colorType colorConf washingTip

/-- The three service responses `app.py` would receive for one image: HTTP
status and parsed body per service. -/
structure ServiceResponses where
  clothStatus : Nat
  cloth : ClothData
  fabricStatus : Nat
  fabric : FabricData
  colorStatus : Nat
  color : ColorData
deriving Repr, DecidableEq

/-- The per-image pipeline of `app.py` (lines 219-346): cloth-status gate,
not-clothing gate (`not cloth_data.get('is_clothing', True) or
cloth_data['cloth_type'] == 'Not Clothing'`), fabric/color status gates,
fabric alias extraction with the Python truthiness test `if fabric_type:`,
then `app_resolve`. -/
def app_process (r : ServiceResponses) : RenderPlan :=
  if r.clothStatus != 200 then RenderPlan.clothApiError r.clothStatus
  else if !(r.cloth.is_clothing.getD true) || r.cloth.cloth_type == "Not Clothing" then
    RenderPlan.notClothing r.cloth.confidence
  else if r.fabricStatus != 200 then RenderPlan.fabricApiError r.fabricStatus
  else if r.colorStatus != 200 then RenderPlan.colorApiError r.colorStatus
  else
    match extract_fabric_type r.fabric with
    | none => RenderPlan.missingFabric r.cloth.cloth_type r.cloth.confidence
    | some ft =>
      if ft.isEmpty then RenderPlan.missingFabric r.cloth.cloth_type r.cloth.confidence
      else app_resolve r.cloth.cloth_type r.cloth.confidence ft r.color

/-- One uploaded image as the `for uploaded_file in uploaded_files` loop body
of `app.py` sees it.  `Image.open` and the preview (lines 199-202) run
before the `try` that starts at line 206, so an exception there (an
undecodable upload) is not caught by the `except` handler; `decodeFailure`
records that path.  Otherwise either the three service responses arrive, or
an exception raised inside the `try` (network failure, malformed JSON) is
reported by the `except` handler at lines 379-382. -/
inductive ImageStep where
  | decodeFailure (msg : String)
  | responses (r : ServiceResponses)
  | raised (msg : String)
deriving Repr, DecidableEq

/-- Whether this image's step fails before the `try` block. -/
def ImageStep.isDecodeFailure : ImageStep → Bool
  | .decodeFailure _ => true
  | _ => false

/-- What the loop body renders for one image: the pipeline outcome, or the
`except` handler's error message for an in-`try` exception.  A decode
failure renders no plan: the exception propagates out of the loop body
uncaught. -/
def process_uploaded : ImageStep → Option RenderPlan
  | .decodeFailure _ => none
  | .responses r => some (app_process r)
  | .raised msg => some (RenderPlan.processingError msg)

/-- Result of the upload loop: either every image produced a plan, or an
uncaught exception stopped the script run, keeping only the plans of the
images processed before it (Streamlit halts the run on an uncaught
exception, so later images are never reached). -/
inductive BatchResult where
  | completed (plans : List RenderPlan)
  | aborted (plans : List RenderPlan) (msg : String)
deriving Repr, DecidableEq

/-- Prefix one more rendered plan onto a batch result. -/
def BatchResult.prepend (p : RenderPlan) : BatchResult → BatchResult
  | .completed ps => .completed (p :: ps)
  | .aborted ps m => .aborted (p :: ps) m

/-- The plans the run rendered. -/
def BatchResult.plans : BatchResult → List RenderPlan
  | .completed ps => ps
  | .aborted ps _ => ps

/-- Whether the run was stopped by an uncaught exception. -/
def BatchResult.isAborted : BatchResult → Bool
  | .completed _ => false
  | .aborted _ _ => true

/-- The upload loop of `app.py`: iterations share no mutable state (every
iteration builds its own `img_bytes`, responses and parsed data), non-200
branches `continue` and in-`try` exceptions are caught per image, but a
decode failure raises outside the `try` and ends the run, skipping all
remaining images. -/
def process_batch : List ImageStep → BatchResult
  | [] => BatchResult.completed []
  | ImageStep.decodeFailure msg :: _ => BatchResult.aborted [] msg
  | ImageStep.responses r :: rest => (process_batch rest).prepend (app_process r)
  | ImageStep.raised msg :: rest =>
    (process_batch rest).prepend (RenderPlan.processingError msg)

/-- Inputs of `local_app.py`'s per-image block: statuses of the three posts
and the fields its result block reads (`fabric_data['fabric_type']`,
`fabric_data['confidence']`, `fabric_data['washing_advice']`,
`color_data['color']`, `color_data['confidence']`, and the cloth fields). -/
structure LocalInput where
  fabricStatus : Nat
  colorStatus : Nat
  clothStatus : Nat
  fabric_type : String
  fabric_confidence : Rat
  washing_advice : String
  color : String
  color_confidence : Rat
  cloth : ClothData
deriving Repr, DecidableEq

/-- The part of `local_app.py`'s result block rendered after the clothing
check (lines 162-195). -/
inductive LocalBody where
  | notClothing
  | leather (clothType : String) (clothConf : Rat) (tip : String)
  | colored (clothType : String) (clothConf : Rat) (colorType : String)
      (colorConf : Rat) (tip : String) (fabricAdvice : String)
deriving Repr, DecidableEq

/-- What `local_app.py` renders for one image: on any non-200 status a single
error, otherwise the fabric heading (`fabric_type` and its confidence,
lines 158-159, shown before the clothing check) together with the body. -/
inductive LocalRender where
  | apiError
  | result (fabricShown : String) (fabricConf : Rat) (body : LocalBody)
deriving Repr, DecidableEq

/-- The fabric type a local render displays, if any. -/
def LocalRender.fabricShownOf : LocalRender → Option String
  | .result f _ _ => some f
  | _ => none

/-- Whether a local render's body is the leather branch. -/
def LocalRender.isLeatherBody : LocalRender → Bool
  | .result _ _ (.leather _ _ _) => true
  | _ => false

/-- The per-image result block of `local_app.py` (lines 148-220): all three
statuses must be 200, the fabric heading is rendered unconditionally, then
the clothing check `cloth_data.get('is_clothing', True) and
cloth_data['cloth_type'] != 'Not Clothing'`, the case-sensitive leather check
`fabric_data['fabric_type'] == 'leather'`, and the case-sensitive color check
`color_type == "bright"`. -/
def local_process (i : LocalInput) : LocalRender :=
  if i.fabricStatus == 200 && i.colorStatus == 200 && i.clothStatus == 200 then
    LocalRender.result i.fabric_type i.fabric_confidence
      (if i.cloth.is_clothing.getD true && i.cloth.cloth_type != "Not Clothing" then
        (if i.fabric_type == "leather" then
          LocalBody.leather i.cloth.cloth_type i.cloth.confidence LEATHER_WASHING
        else
          LocalBody.colored i.cloth.cloth_type i.cloth.confidence i.color i.color_confidence
            (if i.color == "bright" then BRIGHT_WASHING else DARK_WASHING)
            i.washing_advice)
      else LocalBody.notClothing)
  else LocalRender.apiError

/-- Behaviour of one `requests.get(..., '/health')` call: it either returns a
response with some status code or raises. -/
inductive SvcResp where
  | status (code : Nat)
  | exn
deriving Repr, DecidableEq

/-- What the sidebar shows: either the three per-service lines, or (when any
of the three `requests.get` calls raises) the single message of the shared
`except` handler. -/
inductive HealthResult where
  | statuses (cloth color fabric : Bool)
  | connectError
deriving Repr, DecidableEq

/-- `requests.get(url).status_code == 200` for one service, propagating an
exception. -/
def checkOne : SvcResp → Except Unit Bool
  | .status c => .ok (c == 200)
  | .exn => .error ()

/-- The sidebar health block of `app.py` lines 389-399 (identical structure
in `local_app.py` lines 230-240): the three GETs run sequentially inside one
`try`, and the shared `except` replaces all three status lines. -/
def sidebar_health (cloth color fabric : SvcResp) : HealthResult :=
  match checkOne cloth with
  | .error _ => HealthResult.connectError
  | .ok b1 =>
    match checkOne color with
    | .error _ => HealthResult.connectError
    | .ok b2 =>
      match checkOne fabric with
      | .error _ => HealthResult.connectError
      | .ok b3 => HealthResult.statuses b1 b2 b3

/-! ## Concrete example inputs (used by witnesses and counterexamples) -/

/-- A leather jacket image: all services respond 200. -/
def ex_leather : ServiceResponses :=
  { clothStatus := 200,
    cloth := { is_clothing := some true, cloth_type := "Jacket", confidence := 1 },
    fabricStatus := 200, fabric := [("fabric_type", "leather")], colorStatus := 200,
    color := { color := some "dark", confidence := some 1 } }

/-- The spec's scenario input: a dark denim shirt. -/
def ex_denim_dark : ServiceResponses :=
  { clothStatus := 200,
    cloth := { is_clothing := some true, cloth_type := "Shirt", confidence := 1 },
    fabricStatus := 200, fabric := [("fabric_type", "denim")], colorStatus := 200,
    color := { color := some "dark", confidence := some 1 } }

/-- A bright silk blouse, fabric reported under `predicted_class`. -/
def ex_silk : ServiceResponses :=
  { clothStatus := 200,
    cloth := { is_clothing := some true, cloth_type := "Blouse", confidence := 1 },
    fabricStatus := 200, fabric := [("predicted_class", "silk")], colorStatus := 200,
    color := { color := some "bright", confidence := some 1 } }

/-- An unsupported fabric (`wool`) reported under `class`. -/
def ex_wool : ServiceResponses :=
  { clothStatus := 200,
    cloth := { is_clothing := some true, cloth_type := "Sweater", confidence := 1 },
    fabricStatus := 200, fabric := [("class", "wool")], colorStatus := 200,
    color := { color := some "dark", confidence := some 1 } }

/-- A fabric response whose only alias key is `prediction`. -/
def ex_prediction_only : ServiceResponses :=
  { clothStatus := 200,
    cloth := { is_clothing := some true, cloth_type := "Scarf", confidence := 1 },
    fabricStatus := 200, fabric := [("prediction", "silk")], colorStatus := 200,
    color := { color := some "bright", confidence := some 1 } }

/-- A fabric response carrying none of the four alias keys. -/
def ex_no_alias : ServiceResponses :=
  { clothStatus := 200,
    cloth := { is_clothing := some true, cloth_type := "Shirt", confidence := 1 },
    fabricStatus := 200, fabric := [("label", "cotton"), ("score", "high")], colorStatus := 200,
    color := { color := some "bright", confidence := some 1 } }

/-- A color response with no `color` and no `confidence` key. -/
def ex_missing_color : ServiceResponses :=
  { clothStatus := 200,
    cloth := { is_clothing := some true, cloth_type := "Shirt", confidence := 1 },
    fabricStatus := 200, fabric := [("fabric_type", "linen")], colorStatus := 200,
    color := { color := none, confidence := none } }

/-- A result the clothing classifier rejects (`is_clothing` false). -/
def ex_not_clothing : ServiceResponses :=
  { clothStatus := 200,
    cloth := { is_clothing := some false, cloth_type := "Vase", confidence := 1 },
    fabricStatus := 200, fabric := [("fabric_type", "cotton")], colorStatus := 200,
    color := { color := some "bright", confidence := some 1 } }

/-- A `local_app.py` input whose clothing classifier says not-clothing. -/
def ex_local_not_clothing : LocalInput :=
  { fabricStatus := 200, colorStatus := 200, clothStatus := 200,
    fabric_type := "cotton", fabric_confidence := 95,
    washing_advice := "Machine wash warm", color := "dark", color_confidence := 1,
    cloth := { is_clothing := some false, cloth_type := "Vase", confidence := 1 } }

/-- A `local_app.py` input whose fabric label is spelled `Leather`. -/
def ex_local_upper_leather : LocalInput :=
  { fabricStatus := 200, colorStatus := 200, clothStatus := 200,
    fabric_type := "Leather", fabric_confidence := 90,
    washing_advice := "Do not wash", color := "dark", color_confidence := 1,
    cloth := { is_clothing := some true, cloth_type := "Jacket", confidence := 1 } }

/-! ## Helper lemmas -/

set_option maxHeartbeats 1000000 in
/-- `lowerChar` is idempotent: its result is never an uppercase letter. -/
theorem lowerChar_idem (c : Char) : lowerChar (lowerChar c) = lowerChar c := by
  unfold lowerChar
  split <;> try rfl
  all_goals
    rename_i heq
    split at heq <;> first | (exact absurd heq (by decide)) | contradiction

/-- `pyLower` is idempotent. -/
theorem pyLower_idem (s : String) : pyLower (pyLower s) = pyLower s := by
  unfold pyLower
  refine congrArg String.mk ?_
  rw [List.map_map]
  exact List.map_congr_left (fun a _ => lowerChar_idem a)

/-- A fabric key outside the six supported ones is not in `care_guide`. -/
theorem care_guide_eq_none (s : String) (h : s ∉ supported_fabrics) :
    care_guide s = none := by
  unfold care_guide
  split <;> simp_all [supported_fabrics]

/-- A key none of the response's items carries looks up to nothing. -/
theorem dictLookup_eq_none (k : String) (d : FabricData)
    (h : ∀ kv ∈ d, kv.1 ≠ k) : dictLookup k d = none := by
  unfold dictLookup
  rw [List.find?_eq_none.mpr]
  · rfl
  · intro kv hkv
    simpa using h kv hkv

/-- If no item's key is one of the four accepted aliases, extraction fails. -/
theorem extract_none_of_no_alias (d : FabricData)
    (h : ∀ kv ∈ d, kv.1 ∉ fabricAliases) : extract_fabric_type d = none := by
  have h1 : dictLookup "predicted_class" d = none :=
    dictLookup_eq_none _ _ (fun kv hkv hx => h kv hkv (by rw [hx]; decide))
  have h2 : dictLookup "fabric_type" d = none :=
    dictLookup_eq_none _ _ (fun kv hkv hx => h kv hkv (by rw [hx]; decide))
  have h3 : dictLookup "class" d = none :=
    dictLookup_eq_none _ _ (fun kv hkv hx => h kv hkv (by rw [hx]; decide))
  have h4 : d.find? (fun kv => fabricAliases.contains kv.1) = none := by
    rw [List.find?_eq_none]
    intro kv hkv
    simpa using h kv hkv
  simp only [extract_fabric_type, h1, h2, h3, h4]
  rfl

/-- Under good statuses and a passing clothing gate, `app_process` reduces to
the extraction-then-resolve tail of the loop body. -/
theorem app_process_gates (r : ServiceResponses) (h1 : r.clothStatus = 200)
    (h2 : r.cloth.is_clothing.getD true = true)
    (h3 : (r.cloth.cloth_type == "Not Clothing") = false)
    (h4 : r.fabricStatus = 200) (h5 : r.colorStatus = 200) :
    app_process r =
      match extract_fabric_type r.fabric with
      | none => RenderPlan.missingFabric r.cloth.cloth_type r.cloth.confidence
      | some ft =>
        if ft.isEmpty then RenderPlan.missingFabric r.cloth.cloth_type r.cloth.confidence
        else app_resolve r.cloth.cloth_type r.cloth.confidence ft r.color := by
  unfold app_process
  simp [h1, h2, h3, h4, h5]

/-- Under good statuses, a passing clothing gate and a truthy extracted
fabric, `app_process` is `app_resolve` on the extracted fabric. -/
theorem app_process_resolve (r : ServiceResponses) (ft : String)
    (h1 : r.clothStatus = 200) (h2 : r.cloth.is_clothing.getD true = true)
    (h3 : (r.cloth.cloth_type == "Not Clothing") = false)
    (h4 : r.fabricStatus = 200) (h5 : r.colorStatus = 200)
    (h6 : extract_fabric_type r.fabric = some ft) (h7 : ft.isEmpty = false) :
    app_process r = app_resolve r.cloth.cloth_type r.cloth.confidence ft r.color := by
  rw [app_process_gates r h1 h2 h3 h4 h5, h6]
  simp [h7]

/-- With no decode failure, the upload loop completes, rendering per image
exactly what the loop body renders for it. -/
theorem process_batch_all_handled (l : List ImageStep)
    (h : ∀ s ∈ l, s.isDecodeFailure = false) :
    process_batch l = BatchResult.completed (l.filterMap process_uploaded) := by
  induction l with
  | nil => rfl
  | cons s rest ih =>
    have hs : s.isDecodeFailure = false := h s (List.mem_cons_self s rest)
    have hrest : ∀ t ∈ rest, t.isDecodeFailure = false :=
      fun t ht => h t (List.mem_cons_of_mem s ht)
    cases s with
    | decodeFailure m => simp [ImageStep.isDecodeFailure] at hs
    | responses r =>
      simp [process_batch, ih hrest, BatchResult.prepend, List.filterMap_cons, process_uploaded]
    | raised m =>
      simp [process_batch, ih hrest, BatchResult.prepend, List.filterMap_cons, process_uploaded]

/-- With no decode failure, one plan is rendered per image. -/
theorem filterMap_handled_length (l : List ImageStep)
    (h : ∀ s ∈ l, s.isDecodeFailure = false) :
    (l.filterMap process_uploaded).length = l.length := by
  induction l with
  | nil => rfl
  | cons s rest ih =>
    have hs : s.isDecodeFailure = false := h s (List.mem_cons_self s rest)
    have hrest : ∀ t ∈ rest, t.isDecodeFailure = false :=
      fun t ht => h t (List.mem_cons_of_mem s ht)
    cases s with
    | decodeFailure m => simp [ImageStep.isDecodeFailure] at hs
    | responses r =>
      simp [List.filterMap_cons, process_uploaded, ih hrest]
    | raised m =>
      simp [List.filterMap_cons, process_uploaded, ih hrest]

/-- With no decode failure, image `j`'s rendered plan is the outcome of its
own step. -/
theorem filterMap_handled_getElem (l : List ImageStep)
    (h : ∀ s ∈ l, s.isDecodeFailure = false) (j : Nat) :
    (l.filterMap process_uploaded)[j]? = (l[j]?).bind process_uploaded := by
  induction l generalizing j with
  | nil => simp
  | cons s rest ih =>
    have hs : s.isDecodeFailure = false := h s (List.mem_cons_self s rest)
    have hrest : ∀ t ∈ rest, t.isDecodeFailure = false :=
      fun t ht => h t (List.mem_cons_of_mem s ht)
    cases s with
    | decodeFailure m => simp [ImageStep.isDecodeFailure] at hs
    | responses r =>
      cases j with
      | zero => simp [List.filterMap_cons, process_uploaded]
      | succ n => simp [List.filterMap_cons, process_uploaded, ih hrest n]
    | raised m =>
      cases j with
      | zero => simp [List.filterMap_cons, process_uploaded]
      | succ n => simp [List.filterMap_cons, process_uploaded, ih hrest n]

/-- A decode failure aborts the run: the plans of the images before it are
kept, the failing image and everything after it render nothing. -/
theorem process_batch_aborts (pre post : List ImageStep) (msg : String)
    (h : ∀ s ∈ pre, s.isDecodeFailure = false) :
    process_batch (pre ++ ImageStep.decodeFailure msg :: post) =
      BatchResult.aborted (pre.filterMap process_uploaded) msg := by
  induction pre with
  | nil => rfl
  | cons s rest ih =>
    have hs : s.isDecodeFailure = false := h s (List.mem_cons_self s rest)
    have hrest : ∀ t ∈ rest, t.isDecodeFailure = false :=
      fun t ht => h t (List.mem_cons_of_mem s ht)
    cases s with
    | decodeFailure m => simp [ImageStep.isDecodeFailure] at hs
    | responses r =>
      simp [process_batch, ih hrest, BatchResult.prepend, List.filterMap_cons, process_uploaded]
    | raised m =>
      simp [process_batch, ih hrest, BatchResult.prepend, List.filterMap_cons, process_uploaded]

/-! ## Claims -/

/-- C1: for every input classified as leather (`fabric_type == "leather"`),
the resolved render plan contains the leather care record only and never a
color advisory field, for every possible output of the color classifier.
The final conjunct states the same for `local_app.py`'s leather branch, whose
leather care text is its `LEATHER_WASHING` block. -/
theorem leather_renderplan_no_color_advisory (r : ServiceResponses)
    (h1 : r.clothStatus = 200) (h2 : r.cloth.is_clothing.getD true = true)
    (h3 : (r.cloth.cloth_type == "Not Clothing") = false)
    (h4 : r.fabricStatus = 200) (h5 : r.colorStatus = 200)
    (h6 : extract_fabric_type r.fabric = some "leather") :
    (∀ c : ColorData,
      app_process { r with color := c } =
        RenderPlan.leatherOnly r.cloth.cloth_type r.cloth.confidence "leather" leather_record) ∧
    (app_process r).advisoryOf = none ∧
    (app_process r).colorShownOf = none ∧
    (app_process r).careRecordOf = some leather_record ∧
    (∀ (i : LocalInput) (c : String) (q : Rat),
      i.fabricStatus = 200 → i.colorStatus = 200 → i.clothStatus = 200 →
      (i.cloth.is_clothing.getD true && i.cloth.cloth_type != "Not Clothing") = true →
      i.fabric_type = "leather" →
      local_process { i with color := c, color_confidence := q } =
        LocalRender.result "leather" i.fabric_confidence
          (LocalBody.leather i.cloth.cloth_type i.cloth.confidence LEATHER_WASHING)) := by
  have hl : app_is_leather "leather" = true := by decide
  have hg : care_guide (pyLower "leather") = some leather_record := by decide
  have key : ∀ c : ColorData,
      app_process { r with color := c } =
        RenderPlan.leatherOnly r.cloth.cloth_type r.cloth.confidence "leather" leather_record := by
    intro c
    rw [app_process_resolve { r with color := c } "leather" h1 h2 h3 h4 h5 h6 (by decide)]
    simp [app_resolve, hl, hg]
  have keyr : app_process r =
      RenderPlan.leatherOnly r.cloth.cloth_type r.cloth.confidence "leather" leather_record :=
    key r.color
  refine ⟨key, by rw [keyr]; rfl, by rw [keyr]; rfl, by rw [keyr]; rfl, ?_⟩
  intro i c q hf hc hcl hgate hft
  simp [local_process, hf, hc, hcl, hgate, hft]

/-- Witness for C1: a concrete leather image with a dark color verdict. -/
theorem leather_renderplan_no_color_advisory_witness :
    app_process ex_leather = RenderPlan.leatherOnly "Jacket" 1 "leather" leather_record :=
  (leather_renderplan_no_color_advisory ex_leather rfl (by decide) (by decide) rfl rfl
    (by decide)).1 ex_leather.color

/-- C3: for every supported fabric the resolved plan carries exactly the
static `care_guide` record for that fabric, and the denim/dark scenario
produces the denim record and the dark advisory. -/
theorem supported_fabric_care_records :
    (∀ f ∈ supported_fabrics, ∀ r : ServiceResponses,
      r.clothStatus = 200 → r.cloth.is_clothing.getD true = true →
      (r.cloth.cloth_type == "Not Clothing") = false →
      r.fabricStatus = 200 → r.colorStatus = 200 →
      extract_fabric_type r.fabric = some f →
      (app_process r).careRecordOf = care_guide f) ∧
    app_process ex_denim_dark =
      RenderPlan.fabricAndColor "Shirt" 1 "denim" denim_record "dark" 1 DARK_WASHING ∧
    denim_record.title = "Denim — Preserve the Color" ∧
    denim_record.instructions = ["Machine wash cold, inside out", "Gentle cycle only",
      "Air dry preferred (prevents fading)", "Wash infrequently"] := by
  refine ⟨?_, by decide, by decide, by decide⟩
  intro f hf r h1 h2 h3 h4 h5 h6
  fin_cases hf <;>
    rw [app_process_resolve r _ h1 h2 h3 h4 h5 h6 (by decide)] <;>
    rfl

/-- Witness for C3 at `silk`. -/
theorem supported_fabric_care_records_witness :
    (app_process ex_silk).careRecordOf = care_guide "silk" :=
  supported_fabric_care_records.1 "silk" (by decide) ex_silk rfl (by decide) (by decide) rfl rfl
    (by decide)

/-- C4: an extracted fabric outside the supported set does not fail
resolution: the plan is still a fabric-and-color plan and its care record is
the cotton record (the fallback policy). -/
theorem unknown_fabric_cotton_fallback (r : ServiceResponses) (ft : String)
    (h1 : r.clothStatus = 200) (h2 : r.cloth.is_clothing.getD true = true)
    (h3 : (r.cloth.cloth_type == "Not Clothing") = false)
    (h4 : r.fabricStatus = 200) (h5 : r.colorStatus = 200)
    (h6 : extract_fabric_type r.fabric = some ft) (h7 : ft.isEmpty = false)
    (h8 : pyLower ft ∉ supported_fabrics) :
    (app_process r).careRecordOf = some cotton_record ∧
    (app_process r).fabricShownOf = some ft ∧
    (app_process r).advisoryOf.isSome = true := by
  have hg : care_guide (pyLower ft) = none := care_guide_eq_none _ h8
  have hl : app_is_leather ft = false := by
    unfold app_is_leather
    rw [beq_eq_false_iff_ne]
    intro hx
    exact h8 (by rw [hx]; decide)
  rw [app_process_resolve r ft h1 h2 h3 h4 h5 h6 h7]
  simp [app_resolve, hl, hg, RenderPlan.careRecordOf, RenderPlan.fabricShownOf,
    RenderPlan.advisoryOf]

/-- Witness for C4 at `wool`. -/
theorem unknown_fabric_cotton_fallback_witness :
    (app_process ex_wool).careRecordOf = some cotton_record :=
  (unknown_fabric_cotton_fallback ex_wool "wool" rfl (by decide) (by decide) rfl rfl (by decide)
    (by decide) (by decide)).1

set_option maxRecDepth 8192 in
/-- C5 counterexample: the response `{"prediction": "silk"}` carries none of
the three claimed aliases (`predicted_class`, `fabric_type`, `class`), yet
resolution does not fail: the fallback loop also accepts `prediction`, so a
full plan with the silk care record is rendered instead of the
missing-fabric state. -/
theorem prediction_alias_extraction_counterexample :
    dictLookup "predicted_class" ex_prediction_only.fabric = none ∧
    dictLookup "fabric_type" ex_prediction_only.fabric = none ∧
    dictLookup "class" ex_prediction_only.fabric = none ∧
    app_process ex_prediction_only =
      RenderPlan.fabricAndColor "Scarf" 1 "silk" silk_record "bright" 1 BRIGHT_WASHING := by
  refine ⟨rfl, rfl, rfl, by decide⟩

/-- C5 (amended): when the fabric response carries none of the four accepted
alias keys (`predicted_class`, `fabric_type`, `class`, `prediction`),
resolution fails with the explicit missing-fabric state and no care record
is rendered. -/
theorem missing_fabric_aliases_render_error (r : ServiceResponses)
    (h1 : r.clothStatus = 200) (h2 : r.cloth.is_clothing.getD true = true)
    (h3 : (r.cloth.cloth_type == "Not Clothing") = false)
    (h4 : r.fabricStatus = 200) (h5 : r.colorStatus = 200)
    (h6 : ∀ kv ∈ r.fabric, kv.1 ∉ fabricAliases) :
    app_process r = RenderPlan.missingFabric r.cloth.cloth_type r.cloth.confidence ∧
    (app_process r).careRecordOf = none := by
  have he := extract_none_of_no_alias r.fabric h6
  have main : app_process r =
      RenderPlan.missingFabric r.cloth.cloth_type r.cloth.confidence := by
    rw [app_process_gates r h1 h2 h3 h4 h5, he]
  exact ⟨main, by rw [main]; rfl⟩

/-- Witness for the amended C5: a response with only unrelated keys. -/
theorem missing_fabric_aliases_render_error_witness :
    app_process ex_no_alias = RenderPlan.missingFabric "Shirt" 1 :=
  (missing_fabric_aliases_render_error ex_no_alias rfl (by decide) (by decide) rfl rfl
    (by decide)).1

/-- C6: for a non-leather resolution, a `bright` color verdict renders the
`BRIGHT_WASHING` block verbatim and a `dark` verdict renders the
`DARK_WASHING` block verbatim. -/
theorem color_advisory_verbatim (r : ServiceResponses) (ft : String)
    (h1 : r.clothStatus = 200) (h2 : r.cloth.is_clothing.getD true = true)
    (h3 : (r.cloth.cloth_type == "Not Clothing") = false)
    (h4 : r.fabricStatus = 200) (h5 : r.colorStatus = 200)
    (h6 : extract_fabric_type r.fabric = some ft) (h7 : ft.isEmpty = false)
    (h8 : app_is_leather ft = false) :
    (r.color.color = some "bright" → (app_process r).advisoryOf = some BRIGHT_WASHING) ∧
    (r.color.color = some "dark" → (app_process r).advisoryOf = some DARK_WASHING) := by
  rw [app_process_resolve r ft h1 h2 h3 h4 h5 h6 h7]
  have hb : (pyLower "bright" == "bright") = true := by decide
  have hd : (pyLower "dark" == "bright") = false := by decide
  constructor <;> intro hc <;> simp [app_resolve, h8, hc, hb, hd, RenderPlan.advisoryOf]

/-- Witness for C6: the bright silk example. -/
theorem color_advisory_verbatim_witness :
    (app_process ex_silk).advisoryOf = some BRIGHT_WASHING :=
  (color_advisory_verbatim ex_silk "silk" rfl (by decide) (by decide) rfl rfl (by decide)
    (by decide) (by decide)).1 rfl

/-- C10: in `app.py`, a non-leather resolution whose color response lacks the
`color` key reports no error: the plan silently defaults the color class to
`bright` with confidence 0 and shows the bright advisory block; and every
color value whose lowercase form is not `bright` selects the dark advisory
block. -/
theorem missing_color_defaults_bright (r : ServiceResponses) (ft : String)
    (h1 : r.clothStatus = 200) (h2 : r.cloth.is_clothing.getD true = true)
    (h3 : (r.cloth.cloth_type == "Not Clothing") = false)
    (h4 : r.fabricStatus = 200) (h5 : r.colorStatus = 200)
    (h6 : extract_fabric_type r.fabric = some ft) (h7 : ft.isEmpty = false)
    (h8 : app_is_leather ft = false) :
    (r.color.color = none → r.color.confidence = none →
      app_process r =
        RenderPlan.fabricAndColor r.cloth.cloth_type r.cloth.confidence ft
          ((care_guide (pyLower ft)).getD cotton_record) "bright" 0 BRIGHT_WASHING) ∧
    (∀ c : String, r.color.color = some c → (pyLower c == "bright") = false →
      (app_process r).advisoryOf = some DARK_WASHING) := by
  rw [app_process_resolve r ft h1 h2 h3 h4 h5 h6 h7]
  have hb : (pyLower "bright" == "bright") = true := by decide
  constructor
  · intro hc hq
    simp [app_resolve, h8, hc, hq, hb]
  · intro c hc hlow
    simp [app_resolve, h8, hc, hlow, RenderPlan.advisoryOf]

/-- Witness for C10: a linen shirt whose color response is empty. -/
theorem missing_color_defaults_bright_witness :
    app_process ex_missing_color =
      RenderPlan.fabricAndColor "Shirt" 1 "linen" linen_record "bright" 0 BRIGHT_WASHING :=
  (missing_color_defaults_bright ex_missing_color "linen" rfl (by decide) (by decide) rfl rfl
    (by decide) (by decide) (by decide)).1 rfl rfl

/-- C2 counterexample: in `local_app.py` a not-clothing classification still
renders the fabric type and its confidence (they are displayed before the
clothing check), so the claim that no fabric field is populated fails. -/
theorem local_not_clothing_shows_fabric_counterexample :
    ex_local_not_clothing.cloth.is_clothing = some false ∧
    local_process ex_local_not_clothing =
      LocalRender.result "cotton" 95 LocalBody.notClothing ∧
    (local_process ex_local_not_clothing).fabricShownOf = some "cotton" := by
  decide

/-- C2 (amended): for `is_clothing == false` or `cloth_type == "Not
Clothing"`, `app.py`'s plan is `notClothing` with no fabric and no color
fields; `local_app.py`'s body is the not-clothing branch with no care record
and no color advisory, but the fabric type and confidence heading is still
rendered before the clothing check. -/
theorem not_clothing_renderplan :
    (∀ r : ServiceResponses, r.clothStatus = 200 →
      (r.cloth.is_clothing.getD true = false ∨ r.cloth.cloth_type = "Not Clothing") →
      app_process r = RenderPlan.notClothing r.cloth.confidence ∧
      (app_process r).careRecordOf = none ∧
      (app_process r).advisoryOf = none ∧
      (app_process r).colorShownOf = none ∧
      (app_process r).fabricShownOf = none) ∧
    (∀ i : LocalInput, i.fabricStatus = 200 → i.colorStatus = 200 → i.clothStatus = 200 →
      (i.cloth.is_clothing.getD true = false ∨ i.cloth.cloth_type = "Not Clothing") →
      local_process i =
        LocalRender.result i.fabric_type i.fabric_confidence LocalBody.notClothing) := by
  constructor
  · intro r h1 h2
    have hgate :
        (!(r.cloth.is_clothing.getD true) || (r.cloth.cloth_type == "Not Clothing")) = true := by
      rcases h2 with h | h <;> simp [h]
    have main : app_process r = RenderPlan.notClothing r.cloth.confidence := by
      unfold app_process
      simp [h1, hgate]
    exact ⟨main, by rw [main]; rfl, by rw [main]; rfl, by rw [main]; rfl, by rw [main]; rfl⟩
  · intro i hf hc hcl h2
    have hgate :
        (i.cloth.is_clothing.getD true && i.cloth.cloth_type != "Not Clothing") = false := by
      rcases h2 with h | h <;> simp [h]
    simp [local_process, hf, hc, hcl, hgate]

/-- Witness for the amended C2: a vase image. -/
theorem not_clothing_renderplan_witness :
    app_process ex_not_clothing = RenderPlan.notClothing 1 :=
  (not_clothing_renderplan.1 ex_not_clothing rfl (Or.inl (by decide))).1

/-- C7 counterexample: `local_app.py`'s leather check is case-sensitive: the
fabric string `Leather` takes the color (non-leather) branch while its
lowercase form takes the leather branch, so resolving a fabric string does
not always agree with resolving its lowercase form. -/
theorem local_leather_case_sensitivity_counterexample :
    pyLower ex_local_upper_leather.fabric_type = "leather" ∧
    (local_process ex_local_upper_leather).isLeatherBody = false ∧
    (local_process { ex_local_upper_leather with fabric_type := "leather" }).isLeatherBody =
      true := by
  decide

/-- C7 (amended): in `app.py` the care-record lookup and the leather branch
are case-insensitive: any fabric string resolves to the same care record,
advisory and branch as its lowercase form.  In `local_app.py` the leather
check is case-sensitive string equality, so a differently-cased spelling
such as `Leather` takes the color branch while its lowercase form takes the
leather branch. -/
theorem fabric_lookup_case_insensitive :
    (∀ (ct : String) (cc : Rat) (ft : String) (col : ColorData),
      app_is_leather ft = app_is_leather (pyLower ft) ∧
      (app_resolve ct cc ft col).careRecordOf =
        (app_resolve ct cc (pyLower ft) col).careRecordOf ∧
      (app_resolve ct cc ft col).advisoryOf =
        (app_resolve ct cc (pyLower ft) col).advisoryOf) ∧
    (∀ i : LocalInput, i.fabricStatus = 200 → i.colorStatus = 200 → i.clothStatus = 200 →
      (i.cloth.is_clothing.getD true && i.cloth.cloth_type != "Not Clothing") = true →
      i.fabric_type = "Leather" →
      (local_process i).isLeatherBody = false ∧
      (local_process { i with fabric_type := pyLower i.fabric_type }).isLeatherBody = true) := by
  have hupper : (("Leather" : String) == "leather") = false := by decide
  have hlower : pyLower "Leather" = "leather" := by decide
  constructor
  · intro ct cc ft col
    have hidem := pyLower_idem ft
    have hbr : app_is_leather (pyLower ft) = app_is_leather ft := by
      unfold app_is_leather
      rw [hidem]
    refine ⟨hbr.symm, ?_, ?_⟩ <;>
      cases hb : app_is_leather ft <;>
        simp [app_resolve, hb, hbr, hidem, RenderPlan.careRecordOf, RenderPlan.advisoryOf]
  · intro i hf hc hcl hgate hft
    constructor
    · simp [local_process, hf, hc, hcl, hgate, hft, hupper, LocalRender.isLeatherBody]
    · simp [local_process, hf, hc, hcl, hgate, hft, hlower, LocalRender.isLeatherBody]

/-- Witness for the amended C7: the lowercased `Leather` input takes the
leather branch in `local_app.py`. -/
theorem fabric_lookup_case_insensitive_witness :
    (local_process
      { ex_local_upper_leather with
        fabric_type := pyLower ex_local_upper_leather.fabric_type }).isLeatherBody = true :=
  (fabric_lookup_case_insensitive.2 ex_local_upper_leather rfl rfl rfl (by decide) rfl).2

/-- C8 counterexample: when the first health check raises, no per-service
status is reported at all (the shared `except` replaces all three lines), so
one check raising does affect the reported status of the other two. -/
theorem health_exception_aborts_counterexample :
    sidebar_health SvcResp.exn (SvcResp.status 200) (SvcResp.status 200) =
      HealthResult.connectError ∧
    sidebar_health (SvcResp.status 200) (SvcResp.status 200) (SvcResp.status 200) =
      HealthResult.statuses true true true ∧
    HealthResult.connectError ≠ HealthResult.statuses true true true := by
  decide

/-- C8 (amended): each health check maps a non-200 status to `false` and 200
to `true`, and non-200 results do not affect each other; but the three
requests share one `try` block, so if any of them raises an exception, a
single connection-error message replaces all three per-service status
lines. -/
theorem health_check_semantics (a b c : SvcResp) :
    sidebar_health a b c =
      match a, b, c with
      | SvcResp.status x, SvcResp.status y, SvcResp.status z =>
        HealthResult.statuses (x == 200) (y == 200) (z == 200)
      | _, _, _ => HealthResult.connectError := by
  cases a <;> cases b <;> cases c <;> rfl

set_option maxRecDepth 8192 in
/-- C9 counterexample: an undecodable second upload raises in `Image.open`,
before the `try`, so the run aborts: the third image, which on its own
renders a full plan, is never processed.  An exception while processing one
image therefore can abort the remaining images of the batch. -/
theorem batch_decode_failure_aborts_counterexample :
    process_batch
        [ImageStep.responses ex_denim_dark,
         ImageStep.decodeFailure "cannot identify image file",
         ImageStep.responses ex_silk] =
      BatchResult.aborted
        [RenderPlan.fabricAndColor "Shirt" 1 "denim" denim_record "dark" 1 DARK_WASHING]
        "cannot identify image file" ∧
    process_batch [ImageStep.responses ex_silk] =
      BatchResult.completed
        [RenderPlan.fabricAndColor "Blouse" 1 "silk" silk_record "bright" 1 BRIGHT_WASHING] := by
  decide

/-- C9 (amended): failures covered by the per-image `try` are isolated: with
no decode failure in the batch, the run never aborts, renders exactly one
outcome per image, each image's outcome depends only on its own step, and
replacing one image's step by any in-`try` failure (raised exception or
error responses) leaves every other image's outcome unchanged.  But an
exception raised by `Image.open`/`st.image`, which run before the `try`, is
uncaught: the run aborts with only the plans of the images before the
failing one. -/
theorem batch_failure_isolation (batch : List ImageStep) (i : Nat) (x : ImageStep) :
    ((∀ s ∈ batch, s.isDecodeFailure = false) → x.isDecodeFailure = false →
      (process_batch batch).isAborted = false ∧
      (process_batch batch).plans.length = batch.length ∧
      (∀ j : Nat, (process_batch batch).plans[j]? = (batch[j]?).bind process_uploaded) ∧
      (∀ j : Nat, j ≠ i →
        (process_batch (batch.set i x)).plans[j]? = (process_batch batch).plans[j]?)) ∧
    (∀ (pre post : List ImageStep) (msg : String),
      (∀ s ∈ pre, s.isDecodeFailure = false) →
      process_batch (pre ++ ImageStep.decodeFailure msg :: post) =
        BatchResult.aborted (pre.filterMap process_uploaded) msg) := by
  constructor
  · intro hall hx
    have hset : ∀ s ∈ batch.set i x, s.isDecodeFailure = false := by
      intro s hs
      rcases List.mem_or_eq_of_mem_set hs with h | h
      · exact hall s h
      · rw [h]; exact hx
    rw [process_batch_all_handled batch hall, process_batch_all_handled _ hset]
    refine ⟨rfl, filterMap_handled_length batch hall, ?_, ?_⟩
    · intro j
      exact filterMap_handled_getElem batch hall j
    · intro j hj
      show (((batch.set i x).filterMap process_uploaded))[j]? =
        ((batch.filterMap process_uploaded))[j]?
      rw [filterMap_handled_getElem _ hset j, filterMap_handled_getElem batch hall j,
        List.getElem?_set_ne (Ne.symm hj)]
  · exact fun pre post msg h => process_batch_aborts pre post msg h

/-- Witness for the amended C9: failing image 0 inside the `try` leaves
image 1's outcome unchanged. -/
theorem batch_failure_isolation_witness :
    (process_batch ([ImageStep.responses ex_denim_dark, ImageStep.raised "timeout"].set 0
        (ImageStep.raised "boom"))).plans[1]? =
      (process_batch [ImageStep.responses ex_denim_dark, ImageStep.raised "timeout"]).plans[1]? :=
  ((batch_failure_isolation [ImageStep.responses ex_denim_dark, ImageStep.raised "timeout"] 0
      (ImageStep.raised "boom")).1 (by decide) (by decide)).2.2.2 1 (by decide)

end LaundrySorter
